import Mathlib

/-!
Shallow embedding of the `ocltools` repository (oclq / oclc command-line
utilities over the OpenCL driver API) and verification of its specification.

Driver calls are modelled by oracle parameters: each embedded function takes
the statuses, sizes and payloads that the vendor driver would report, and
returns a trace of the calls it issued together with either a normal return
value or a process exit (exit code, printed lines).  `EXIT_SUCCESS` is 0 and
`EXIT_FAILURE` is 1.
-/

/-- Outcome of a function in a process that may call `exit`: either a normal
return value, or process termination with an exit code and the lines printed
to the standard streams. -/
inductive ProcResult (α : Type) where
  | ret : α → ProcResult α
  | exit : Nat → List String → ProcResult α
deriving DecidableEq, Repr

/-- `IfErrorThenExit` from `src/oclc/main.cpp` and the oclq main file (the two
copies are textually identical).  The contents of `OCLT::ErrorMessageMap`
(defined in an errors translation unit not present under `src/`) are passed in
as the association list `table`.  On a non-zero status the routine prints
`"error : "` followed by the mapped text, or the literal fallback
`"error : unkown error"` (spelled exactly as in the source), and exits with
`EXIT_FAILURE`. -/
def IfErrorThenExit (table : List (Int × String)) (error : Int) : ProcResult Unit :=
  if error = 0 then
    .ret ()
  else
    match table.lookup error with
    | some msg => .exit 1 ["error : " ++ msg]
    | none => .exit 1 ["error : unkown error"]

/-- The two phases of the size-then-fetch query pattern, used to trace which
driver calls an accessor issued. -/
inductive Phase where
  | probe
  | fetch
deriving DecidableEq, Repr

/-- Oracle for one variable-length info query: `ret1` is the status of the
size-probing call, `size` the value left in the `size` out-parameter by that
call (the variable is initialised to 0, so a driver that does not write it
leaves 0), `ret2` the status of the value-fetching call, and `data` the
C string found in the buffer after the second call (the buffer's first byte is
pre-set to the null terminator, so a driver that writes nothing yields `[]`). -/
structure InfoQuery where
  ret1 : Int
  size : Nat
  ret2 : Int
  data : List Char
deriving DecidableEq, Repr

/-- `GetPlatformInfo` from the oclq main file: probe the required size; if the
reported size is zero return an empty string at once; otherwise check the
first call's status, then fetch the value.  The second call's status is
assigned to `ret` in the source but never inspected afterwards. -/
def GetPlatformInfo (table : List (Int × String)) (q : InfoQuery) :
    List Phase × ProcResult String :=
  if q.size = 0 then
    ([.probe], .ret "")
  else
    match IfErrorThenExit table q.ret1 with
    | .exit c m => ([.probe], .exit c m)
    | .ret () => ([.probe, .fetch], .ret (String.mk q.data))

/-- The string overload of `GetDeviceInfo` from the oclq main file; its body
is line-for-line the same two-phase pattern as `GetPlatformInfo`. -/
def GetDeviceInfo (table : List (Int × String)) (q : InfoQuery) :
    List Phase × ProcResult String :=
  if q.size = 0 then
    ([.probe], .ret "")
  else
    match IfErrorThenExit table q.ret1 with
    | .exit c m => ([.probe], .exit c m)
    | .ret () => ([.probe, .fetch], .ret (String.mk q.data))

/-- `sizeof(size_t)` on the 64-bit targets this tool is built for. -/
def sizeofSizeT : Nat := 8

/-- `GetDeviceMaxWorkItemSizes` from the oclq main file: given the separately
probed dimension count, return an empty vector when it is zero, otherwise
fetch `sizeof(size_t) * dims` bytes into a vector of exactly `dims` elements.
`ret` is the fetch status and `data` the word values the driver writes
(missing positions keep the vector's zero-initialised value). -/
def GetDeviceMaxWorkItemSizes (table : List (Int × String)) (dims : Nat)
    (ret : Int) (data : List Nat) : ProcResult (List Nat) :=
  if dims = 0 then
    .ret []
  else
    match IfErrorThenExit table ret with
    | .exit c m => .exit c m
    | .ret () => .ret ((List.range dims).map (fun i => data.getD i 0))

/-- `CL_DEVICE_TYPE_DEFAULT` from the OpenCL header (`1 << 0`). -/
def CL_DEVICE_TYPE_DEFAULT : Nat := 1

/-- `CL_DEVICE_TYPE_CPU` from the OpenCL header (`1 << 1`). -/
def CL_DEVICE_TYPE_CPU : Nat := 2

/-- `CL_DEVICE_TYPE_GPU` from the OpenCL header (`1 << 2`). -/
def CL_DEVICE_TYPE_GPU : Nat := 4

/-- `CL_DEVICE_TYPE_ACCELERATOR` from the OpenCL header (`1 << 3`). -/
def CL_DEVICE_TYPE_ACCELERATOR : Nat := 8

/-- `CL_DEVICE_TYPE_ALL` from the OpenCL header (`0xFFFFFFFF`). -/
def CL_DEVICE_TYPE_ALL : Nat := 0xFFFFFFFF

/-- `OCLT::DeviceTypeNameMap` from `src/lib/names.cpp`: the five device-type
bitmask values paired with their stringised macro names, in source order.
All keys are distinct, so association-list lookup agrees with `std::map`
lookup. -/
def DeviceTypeNameMap : List (Nat × String) :=
  [(CL_DEVICE_TYPE_CPU, "CL_DEVICE_TYPE_CPU"),
   (CL_DEVICE_TYPE_GPU, "CL_DEVICE_TYPE_GPU"),
   (CL_DEVICE_TYPE_ACCELERATOR, "CL_DEVICE_TYPE_ACCELERATOR"),
   (CL_DEVICE_TYPE_ALL, "CL_DEVICE_TYPE_ALL"),
   (CL_DEVICE_TYPE_DEFAULT, "CL_DEVICE_TYPE_DEFAULT")]

/-- `GetDeviceType` from the oclq main file: query `CL_DEVICE_TYPE` (with
status `ret`, checked by `IfErrorThenExit`), then map the reported bitmask
`deviceType` through `DeviceTypeNameMap`, falling back to `"unknown"` when the
value is not in the table. -/
def GetDeviceType (table : List (Int × String)) (ret : Int) (deviceType : Nat) :
    ProcResult String :=
  match IfErrorThenExit table ret with
  | .exit c m => .exit c m
  | .ret () => .ret ((DeviceTypeNameMap.lookup deviceType).getD "unknown")

/-- Oracle for the sequence of driver calls `BuildProgram` in
`src/oclc/main.cpp` makes: one status per call, the platform/device/binary
counts the driver reports, and the per-device binaries it writes on the
`CL_PROGRAM_BINARIES` fetch (`binaries.length` is the number of binaries the
driver actually provides; their lengths are the sizes it reports on the
`CL_PROGRAM_BINARY_SIZES` probe). -/
structure BuildDriver where
  platRet : Int
  numPlatforms : Nat
  devCountRet : Int
  numDevices : Nat
  devListRet : Int
  ctxRet : Int
  progRet : Int
  buildRet : Int
  numProgDevRet : Int
  numProgramDevices : Nat
  sizesRet : Int
  binsRet : Int
  binaries : List (List Nat)
deriving Repr

/-- Result of a successful run of `BuildProgram`: `dataPtr` is the value the
dead local `unsigned char* dataPtr = &binary[0];` reads from the caller's
output vector (as a total `Option`-valued index), `fetched` the per-device
binaries retrieved by the `CL_PROGRAM_BINARIES` call, and `binary` the single
binary assigned back to the output parameter (`binary = binaries[0]`). -/
structure BuildResult where
  dataPtr : Option Nat
  fetched : List (List Nat)
  binary : List Nat
deriving DecidableEq, Repr

/-- `BuildProgram` from `src/oclc/main.cpp`, over the driver oracle `d`.
`sources` is the loaded kernel sources (marshalled into pointer/size arrays in
the source; only their sizes matter to the embedding) and `binaryIn` the
caller's output vector at entry.  The returned list is the trace of driver
entry points invoked, in order. -/
def BuildProgram (table : List (Int × String)) (sources : List (List Nat))
    (binaryIn : List Nat) (d : BuildDriver) : List String × ProcResult BuildResult :=
  let _srcSizes := sources.map (·.length)
  let t1 := ["clGetPlatformIDs"]
  match IfErrorThenExit table d.platRet with
  | .exit c m => (t1, .exit c m)
  | .ret () =>
    if d.numPlatforms = 0 then
      (t1, .exit 1 ["no platform on system"])
    else
      let t2 := t1 ++ ["clGetDeviceIDs"]
      match IfErrorThenExit table d.devCountRet with
      | .exit c m => (t2, .exit c m)
      | .ret () =>
        if d.numDevices = 0 then
          (t2, .exit 1 ["no device on system"])
        else
          let t3 := t2 ++ ["clGetDeviceIDs"]
          match IfErrorThenExit table d.devListRet with
          | .exit c m => (t3, .exit c m)
          | .ret () =>
            let t4 := t3 ++ ["clCreateContext"]
            match IfErrorThenExit table d.ctxRet with
            | .exit c m => (t4, .exit c m)
            | .ret () =>
              let t5 := t4 ++ ["clCreateProgramWithSource"]
              match IfErrorThenExit table d.progRet with
              | .exit c m => (t5, .exit c m)
              | .ret () =>
                let t6 := t5 ++ ["clBuildProgram"]
                match IfErrorThenExit table d.buildRet with
                | .exit c m => (t6, .exit c m)
                | .ret () =>
                  let t7 := t6 ++ ["clGetProgramInfo"]
                  match IfErrorThenExit table d.numProgDevRet with
                  | .exit c m => (t7, .exit c m)
                  | .ret () =>
                    if d.numProgramDevices = 0 then
                      (t7, .exit 1 ["no device specific program built"])
                    else
                      let t8 := t7 ++ ["clGetProgramInfo"]
                      match IfErrorThenExit table d.sizesRet with
                      | .exit c m => (t8, .exit c m)
                      | .ret () =>
                        let dataPtr := binaryIn.get? 0
                        let t9 := t8 ++ ["clGetProgramInfo"]
                        match IfErrorThenExit table d.binsRet with
                        | .exit c m => (t9, .exit c m)
                        | .ret () =>
                          let fetched := (List.range d.numProgramDevices).map
                            (fun i => d.binaries.getD i [])
                          (t9, .ret ⟨dataPtr, fetched, fetched.getD 0 []⟩)

/-- `SaveBinary` from `src/oclc/main.cpp`: open `outfile` for writing (the
oracle `canOpen` says whether `fopen` succeeds; `errText` is the
`strerror(errno)` text on failure) and write exactly the bytes of `binary`.
The normal return carries the path and the bytes written to it. -/
def SaveBinary (errText : String) (outfile : String) (binary : List Nat)
    (canOpen : Bool) : ProcResult (String × List Nat) :=
  if canOpen then
    .ret (outfile, binary)
  else
    .exit 1 [errText ++ ": " ++ outfile]

/-- `LoadSource` from `src/oclc/main.cpp`: the file-system oracle `fs` gives
the file's bytes, or `none` when `fopen` fails, in which case the process
exits after printing `strerror(errno)` (the parameter `errText`) and the
path.  The `feof`/`fread` loop's net effect is reading the whole file. -/
def LoadSource (errText : String) (fs : String → Option (List Nat))
    (infile : String) : ProcResult (List Nat) :=
  match fs infile with
  | none => .exit 1 [errText ++ ": " ++ infile]
  | some bytes => .ret bytes

/-- The loop in oclc's `main` that loads each input file in turn via
`LoadSource`, stopping at the first failure. -/
def LoadSources (errText : String) (fs : String → Option (List Nat)) :
    List String → ProcResult (List (List Nat))
  | [] => .ret []
  | f :: rest =>
    match LoadSource errText fs f with
    | .exit c m => .exit c m
    | .ret s =>
      match LoadSources errText fs rest with
      | .exit c m => .exit c m
      | .ret ss => .ret (s :: ss)

/-- The option state filled in by oclc's `GetOpts`: the three flag booleans,
the `-o` output path (empty when not given) and the positional input files. -/
structure OclcOpts where
  verbose : Bool
  version : Bool
  help : Bool
  outfile : String
  infiles : List String
deriving DecidableEq, Repr

/-- An argument `getopt_long` treats as an option: it begins with a dash and
has at least one further character (a bare "-" is a non-option argument). -/
def isOptionArg (a : String) : Bool :=
  match a.data with
  | '-' :: _ :: _ => true
  | _ => false

/-- The `getopt_long` loop of `GetOpts` in `src/oclc/main.cpp`, modelled for
command lines that pass each option as its own argument (the form the tool
documents): `-h` or `--help`, `-v` or `--verbose`, `-V` or `--version` set
their flags, `-o` consumes the next argument as the output file, unrecognised
options are skipped (the `default: break` arm), and every non-option argument
is collected, in order, as an input file. -/
def GetOptsLoop : List String → OclcOpts → OclcOpts
  | [], acc => acc
  | "-o" :: b :: rest, acc => GetOptsLoop rest { acc with outfile := b }
  | ["-o"], acc => acc
  | a :: rest, acc =>
    if a = "-h" || a = "--help" then
      GetOptsLoop rest { acc with help := true }
    else if a = "-v" || a = "--verbose" then
      GetOptsLoop rest { acc with verbose := true }
    else if a = "-V" || a = "--version" then
      GetOptsLoop rest { acc with version := true }
    else if isOptionArg a then
      GetOptsLoop rest acc
    else
      GetOptsLoop rest { acc with infiles := acc.infiles ++ [a] }

/-- `GetOpts` from `src/oclc/main.cpp`: flags start out false, output path
and input list empty, then the argument vector (after `argv[0]`) is scanned
by `GetOptsLoop`. -/
def GetOpts (args : List String) : OclcOpts :=
  GetOptsLoop args ⟨false, false, false, "", []⟩

/-- The usage text oclc's `main` prints for `-h`. -/
def oclcUsage (argv0 : String) : List String :=
  ["usage: " ++ argv0 ++ " [options] kernel.cl",
   "  -o file      output file name",
   "  -v --verbose print detail",
   "  -h --help    print help",
   "  -V --version print version information"]

/-- `main` from `src/oclc/main.cpp` after option parsing: print usage and
exit 0 on `-h`; exit 1 with "no input file" when no positional argument was
given; otherwise load every source, build (the output vector `binary` is
empty when `BuildProgram` receives it), default the output path to
`out.clx`, and save.  The first component is the trace of driver entry
points invoked. -/
def oclcMain (argv0 : String) (o : OclcOpts) (errText : String)
    (fs : String → Option (List Nat)) (table : List (Int × String))
    (d : BuildDriver) (canOpen : Bool) : List String × ProcResult (String × List Nat) :=
  if o.help then
    ([], .exit 0 (oclcUsage argv0))
  else if o.infiles = [] then
    ([], .exit 1 ["no input file"])
  else
    match LoadSources errText fs o.infiles with
    | .exit c m => ([], .exit c m)
    | .ret sources =>
      match BuildProgram table sources [] d with
      | (t, .exit c m) => (t, .exit c m)
      | (t, .ret r) =>
        let outfile := if o.outfile = "" then "out.clx" else o.outfile
        match SaveBinary errText outfile r.binary canOpen with
        | .exit c m => (t, .exit c m)
        | .ret res => (t, .ret res)

/-- `gVersionMajor` shared by both tools. -/
def gVersionMajor : Nat := 1

/-- `gVersionMinor` shared by both tools. -/
def gVersionMinor : Nat := 0

/-- The flag state filled in by oclq's `GetOpts`. -/
structure OclqOpts where
  verbose : Bool
  version : Bool
  help : Bool
deriving DecidableEq, Repr

/-- Oracle for the driver calls oclq's `main` makes itself: the two
`clGetPlatformIDs` statuses and the platform count, and per platform index
the `clGetDeviceIDs` count-probe status, device count, and list-fetch
status. -/
structure OclqDriver where
  platRet1 : Int
  numPlatforms : Nat
  platRet2 : Int
  devCountRet : Nat → Int
  devCount : Nat → Nat
  devListRet : Nat → Int

/-- Run a traced, possibly-exiting step for each index in turn, accumulating
the traces and stopping at the first exit (the shape of oclq's nested
platform and device loops). -/
def foldSteps (f : Nat → List String × ProcResult Unit) :
    List Nat → List String × ProcResult Unit
  | [] => ([], .ret ())
  | i :: rest =>
    match f i with
    | (q, .exit c m) => (q, .exit c m)
    | (q, .ret ()) =>
      match foldSteps f rest with
      | (q2, r2) => (q ++ q2, r2)

/-- The body of the platform loop in oclq's `main` for platform `i`:
`PrintPlatform`, then the `clGetDeviceIDs` count probe (checked), `continue`
on zero devices, the checked list fetch, then `PrintDevice` per device.
`pp` and `pd` are the attribute-query traces and outcomes of `PrintPlatform`
and `PrintDevice` (which render every attribute through the two-phase
accessors). -/
def oclqProcessPlatform (table : List (Int × String)) (d : OclqDriver)
    (pp : Nat → List String × ProcResult Unit)
    (pd : Nat → Nat → List String × ProcResult Unit) (i : Nat) :
    List String × ProcResult Unit :=
  match pp i with
  | (q, .exit c m) => (q, .exit c m)
  | (q, .ret ()) =>
    match IfErrorThenExit table (d.devCountRet i) with
    | .exit c m => (q, .exit c m)
    | .ret () =>
      if d.devCount i = 0 then
        (q, .ret ())
      else
        match IfErrorThenExit table (d.devListRet i) with
        | .exit c m => (q, .exit c m)
        | .ret () =>
          match foldSteps (pd i) (List.range (d.devCount i)) with
          | (q2, r2) => (q ++ q2, r2)

/-- The usage text oclq's `main` prints for `-h`. -/
def oclqUsage (argv0 : String) : List String :=
  ["usage: " ++ argv0 ++ " [options]",
   "  -v --verbose print detail",
   "  -h --help    print help",
   "  -V --version print version information"]

/-- `main` from the oclq main file after option parsing: usage on `-h`
(exit 0), version string on `-V` (exit 0), then the checked platform-count
probe; zero platforms is fatal with the literal message
"there is no OpenCL platform"; otherwise the checked platform list fetch and
the platform loop.  The first component is the trace of attribute queries
issued (contributed only by the `PrintPlatform` and `PrintDevice` oracles
`pp` and `pd`). -/
def oclqMain (argv0 : String) (o : OclqOpts) (table : List (Int × String))
    (d : OclqDriver) (pp : Nat → List String × ProcResult Unit)
    (pd : Nat → Nat → List String × ProcResult Unit) :
    List String × ProcResult Unit :=
  if o.help then
    ([], .exit 0 (oclqUsage argv0))
  else if o.version then
    ([], .exit 0 ["oclq version " ++ toString gVersionMajor ++ "." ++ toString gVersionMinor])
  else
    match IfErrorThenExit table d.platRet1 with
    | .exit c m => ([], .exit c m)
    | .ret () =>
      if d.numPlatforms = 0 then
        ([], .exit 1 ["there is no OpenCL platform"])
      else
        match IfErrorThenExit table d.platRet2 with
        | .exit c m => ([], .exit c m)
        | .ret () =>
          foldSteps (oclqProcessPlatform table d pp pd) (List.range d.numPlatforms)

/-- Reading every index of a list back with a default reproduces the list. -/
theorem range_map_getD {α : Type} (d0 : α) (l : List α) :
    (List.range l.length).map (fun i => l.getD i d0) = l := by
  induction l with
  | nil => rfl
  | cons a t ih =>
    rw [List.length_cons, List.range_succ_eq_map, List.map_cons, List.map_map]
    have hcomp : ((fun i => (a :: t).getD i d0) ∘ Nat.succ) = fun i => t.getD i d0 :=
      funext fun i => rfl
    rw [hcomp, ih]
    rfl

/-- C1: whenever the driver reports `n ≥ 1` device-specific binaries (all
call statuses zero, at least one platform and device), `BuildProgram`
fetches all `n` binaries but assigns only the first one to the output
parameter, and `SaveBinary` writes exactly those bytes to the output file. -/
theorem oclc_retains_first_binary (table : List (Int × String))
    (sources : List (List Nat)) (binaryIn : List Nat) (d : BuildDriver)
    (outfile errText : String)
    (h1 : d.platRet = 0) (h2 : d.numPlatforms ≠ 0)
    (h3 : d.devCountRet = 0) (h4 : d.numDevices ≠ 0)
    (h5 : d.devListRet = 0) (h6 : d.ctxRet = 0) (h7 : d.progRet = 0)
    (h8 : d.buildRet = 0) (h9 : d.numProgDevRet = 0)
    (h10 : 1 ≤ d.numProgramDevices) (h11 : d.sizesRet = 0) (h12 : d.binsRet = 0)
    (h13 : d.binaries.length = d.numProgramDevices) :
    ∃ r : BuildResult,
      (BuildProgram table sources binaryIn d).2 = .ret r ∧
      r.fetched = d.binaries ∧
      r.fetched.length = d.numProgramDevices ∧
      r.binary = d.binaries.getD 0 [] ∧
      SaveBinary errText outfile r.binary true = .ret (outfile, d.binaries.getD 0 []) := by
  have hn : d.numProgramDevices ≠ 0 := Nat.one_le_iff_ne_zero.mp h10
  have hfetch : (List.range d.numProgramDevices).map (fun i => d.binaries.getD i []) =
      d.binaries := by
    rw [← h13]
    exact range_map_getD [] d.binaries
  refine ⟨⟨binaryIn.get? 0,
    (List.range d.numProgramDevices).map (fun i => d.binaries.getD i []),
    ((List.range d.numProgramDevices).map (fun i => d.binaries.getD i [])).getD 0 []⟩,
    ?_, hfetch, ?_, ?_, ?_⟩
  · simp [BuildProgram, IfErrorThenExit, h1, h2, h3, h4, h5, h6, h7, h8, h9, h11, h12, hn]
  · rw [hfetch, h13]
  · rw [hfetch]
  · rw [hfetch]
    rfl

/-- C1 witness: a driver reporting two binaries; the first one, `[1, 2]`, is
retained and written to `out.clx`. -/
theorem oclc_retains_first_binary_witness :
    ∃ r : BuildResult,
      (BuildProgram [] [[7]] [] ⟨0, 1, 0, 1, 0, 0, 0, 0, 0, 2, 0, 0, [[1, 2], [3, 4, 5]]⟩).2 =
        .ret r ∧
      r.fetched = [[1, 2], [3, 4, 5]] ∧
      r.fetched.length = 2 ∧
      r.binary = [1, 2] ∧
      SaveBinary "e" "out.clx" r.binary true = .ret ("out.clx", [1, 2]) :=
  oclc_retains_first_binary [] [[7]] [] ⟨0, 1, 0, 1, 0, 0, 0, 0, 0, 2, 0, 0, [[1, 2], [3, 4, 5]]⟩
    "out.clx" "e" rfl (by decide) rfl (by decide) rfl rfl rfl rfl rfl (by decide) rfl rfl rfl

/-- C2: evaluating the string accessors at a query whose value-fetching
second call reports status `-5` (first call succeeds, size 5): both return
the fetched string normally instead of terminating, because the second
call's status is assigned but never checked; and a first-phase error with a
probed size of zero likewise returns the empty string instead of exiting. -/
theorem accessor_ignores_fetch_status :
    GetPlatformInfo [] ⟨0, 5, -5, ['a', 'b', 'c', 'd', 'e']⟩ =
      ([.probe, .fetch], .ret "abcde") ∧
    GetDeviceInfo [] ⟨0, 5, -5, ['a', 'b', 'c', 'd', 'e']⟩ =
      ([.probe, .fetch], .ret "abcde") ∧
    GetPlatformInfo [] ⟨-3, 0, 0, []⟩ = ([.probe], .ret "") :=
  ⟨rfl, rfl, rfl⟩

/-- C3: for a status code in the table the routine prints `"error : "` and
the exact mapped text and exits 1; but for a non-zero code outside the table
it prints the misspelled fallback `"unkown error"`, not the spec's
`"unknown error"`. -/
theorem error_fallback_misspelled :
    IfErrorThenExit [(-1, "CL_DEVICE_NOT_FOUND")] (-1) =
      .exit 1 ["error : CL_DEVICE_NOT_FOUND"] ∧
    IfErrorThenExit [(-1, "CL_DEVICE_NOT_FOUND")] (-9999) =
      .exit 1 ["error : unkown error"] ∧
    "unkown error" ≠ "unknown error" :=
  ⟨rfl, rfl, by decide⟩

/-- C4: when the size-probing first call reports a required size of zero,
both two-phase string accessors return the empty string at once and issue no
second (value-fetching) call. -/
theorem accessor_zero_size_skips_fetch (table : List (Int × String)) (q : InfoQuery)
    (h : q.size = 0) :
    GetPlatformInfo table q = ([.probe], .ret "") ∧
    GetDeviceInfo table q = ([.probe], .ret "") := by
  constructor <;> simp [GetPlatformInfo, GetDeviceInfo, h]

/-- C4 witness: a query with probed size zero (and even a failing first
status) yields the empty string after the probe call alone. -/
theorem accessor_zero_size_skips_fetch_witness :
    GetPlatformInfo [] ⟨-3, 0, -7, []⟩ = ([.probe], .ret "") ∧
    GetDeviceInfo [] ⟨-3, 0, -7, []⟩ = ([.probe], .ret "") :=
  accessor_zero_size_skips_fetch [] ⟨-3, 0, -7, []⟩ rfl

/-- C5: on a successful fetch the work-item-sizes accessor returns an array
whose length is exactly the probed byte size `sizeof(size_t) * dims` divided
by the element width `sizeof(size_t)`, and a probed size of zero yields the
empty sequence. -/
theorem work_item_sizes_length_exact (table : List (Int × String)) (dims : Nat)
    (ret : Int) (data : List Nat) (h : ret = 0) :
    ∃ l : List Nat,
      GetDeviceMaxWorkItemSizes table dims ret data = .ret l ∧
      l.length = (sizeofSizeT * dims) / sizeofSizeT ∧
      (dims = 0 → l = []) := by
  by_cases hd : dims = 0
  · refine ⟨[], ?_, ?_, fun _ => rfl⟩
    · simp [GetDeviceMaxWorkItemSizes, hd]
    · simp [hd]
  · refine ⟨(List.range dims).map (fun i => data.getD i 0), ?_, ?_, fun h0 => absurd h0 hd⟩
    · simp [GetDeviceMaxWorkItemSizes, hd, h, IfErrorThenExit]
    · simp only [List.length_map, List.length_range, sizeofSizeT]
      omega

/-- C5 witness: three dimensions of eight bytes each decode to exactly three
elements. -/
theorem work_item_sizes_length_exact_witness :
    ∃ l : List Nat,
      GetDeviceMaxWorkItemSizes [] 3 0 [4, 5, 6] = .ret l ∧
      l.length = (sizeofSizeT * 3) / sizeofSizeT ∧
      (3 = 0 → l = []) :=
  work_item_sizes_length_exact [] 3 0 [4, 5, 6] rfl

/-- C6: with neither help nor version flag set and a driver reporting zero
platforms (probe status zero), oclq's `main` prints the literal message
"there is no OpenCL platform" and exits with code 1, issuing no attribute
queries at all (the trace is empty for every possible printer behaviour). -/
theorem oclq_no_platform_exit (argv0 : String) (o : OclqOpts)
    (table : List (Int × String)) (d : OclqDriver)
    (pp : Nat → List String × ProcResult Unit)
    (pd : Nat → Nat → List String × ProcResult Unit)
    (hh : o.help = false) (hv : o.version = false)
    (hr : d.platRet1 = 0) (hp : d.numPlatforms = 0) :
    oclqMain argv0 o table d pp pd = ([], .exit 1 ["there is no OpenCL platform"]) := by
  simp [oclqMain, hh, hv, hr, hp, IfErrorThenExit]

/-- C6 witness: a concrete flagless invocation against a zero-platform
driver. -/
theorem oclq_no_platform_exit_witness :
    oclqMain "oclq" ⟨false, false, false⟩ []
      ⟨0, 0, 0, fun _ => 0, fun _ => 0, fun _ => 0⟩
      (fun _ => ([], .ret ())) (fun _ _ => ([], .ret ())) =
      ([], .exit 1 ["there is no OpenCL platform"]) :=
  oclq_no_platform_exit "oclq" ⟨false, false, false⟩ []
    ⟨0, 0, 0, fun _ => 0, fun _ => 0, fun _ => 0⟩
    (fun _ => ([], .ret ())) (fun _ _ => ([], .ret ())) rfl rfl rfl rfl

/-- C7: with the help flag unset and no positional input file, oclc's `main`
prints the literal message "no input file" and exits with code 1 with an
empty driver-call trace (no driver call is ever issued). -/
theorem oclc_no_input_file_exit (argv0 : String) (o : OclcOpts) (errText : String)
    (fs : String → Option (List Nat)) (table : List (Int × String))
    (d : BuildDriver) (canOpen : Bool)
    (hh : o.help = false) (hi : o.infiles = []) :
    oclcMain argv0 o errText fs table d canOpen = ([], .exit 1 ["no input file"]) := by
  simp [oclcMain, hh, hi]

/-- C7 witness: a concrete invocation with no input files. -/
theorem oclc_no_input_file_exit_witness :
    oclcMain "oclc" ⟨false, false, false, "", []⟩ "e" (fun _ => none) []
      ⟨0, 1, 0, 1, 0, 0, 0, 0, 0, 1, 0, 0, [[1]]⟩ true =
      ([], .exit 1 ["no input file"]) :=
  oclc_no_input_file_exit "oclc" ⟨false, false, false, "", []⟩ "e" (fun _ => none) []
    ⟨0, 1, 0, 1, 0, 0, 0, 0, 0, 1, 0, 0, [[1]]⟩ true rfl rfl

/-- C8: `GetDeviceType` (on a successful query) maps each of the five
device-type values of `DeviceTypeNameMap` to its exact name string, and any
value outside the table to `"unknown"`. -/
theorem device_type_lookup (table : List (Int × String)) (t : Nat)
    (h : DeviceTypeNameMap.lookup t = none) :
    GetDeviceType table 0 CL_DEVICE_TYPE_CPU = .ret "CL_DEVICE_TYPE_CPU" ∧
    GetDeviceType table 0 CL_DEVICE_TYPE_GPU = .ret "CL_DEVICE_TYPE_GPU" ∧
    GetDeviceType table 0 CL_DEVICE_TYPE_ACCELERATOR = .ret "CL_DEVICE_TYPE_ACCELERATOR" ∧
    GetDeviceType table 0 CL_DEVICE_TYPE_ALL = .ret "CL_DEVICE_TYPE_ALL" ∧
    GetDeviceType table 0 CL_DEVICE_TYPE_DEFAULT = .ret "CL_DEVICE_TYPE_DEFAULT" ∧
    GetDeviceType table 0 t = .ret "unknown" := by
  refine ⟨rfl, rfl, rfl, rfl, rfl, ?_⟩
  simp [GetDeviceType, IfErrorThenExit, h]

/-- C8 witness: the bitmask 3 is not a key of the table and resolves to
"unknown". -/
theorem device_type_lookup_witness :
    GetDeviceType [] 0 CL_DEVICE_TYPE_CPU = .ret "CL_DEVICE_TYPE_CPU" ∧
    GetDeviceType [] 0 CL_DEVICE_TYPE_GPU = .ret "CL_DEVICE_TYPE_GPU" ∧
    GetDeviceType [] 0 CL_DEVICE_TYPE_ACCELERATOR = .ret "CL_DEVICE_TYPE_ACCELERATOR" ∧
    GetDeviceType [] 0 CL_DEVICE_TYPE_ALL = .ret "CL_DEVICE_TYPE_ALL" ∧
    GetDeviceType [] 0 CL_DEVICE_TYPE_DEFAULT = .ret "CL_DEVICE_TYPE_DEFAULT" ∧
    GetDeviceType [] 0 3 = .ret "unknown" :=
  device_type_lookup [] 3 rfl

/-- C9: oclc's `GetOpts` does parse `-V` (the version flag is set and the
remaining argument is still collected as an input file), but `main` never
reads the flag: for every option state, file system, driver and output
oracle, the run with the version flag set is identical to the run with it
clear — no version string is printed and the program loads, builds and
saves exactly as if the flag were absent. -/
theorem oclc_version_flag_parsed_but_unused :
    (GetOpts ["-V", "kernel.cl"]).version = true ∧
    (GetOpts ["-V", "kernel.cl"]).infiles = ["kernel.cl"] ∧
    ∀ (argv0 : String) (o : OclcOpts) (errText : String)
      (fs : String → Option (List Nat)) (table : List (Int × String))
      (d : BuildDriver) (canOpen : Bool),
      oclcMain argv0 { o with version := true } errText fs table d canOpen =
        oclcMain argv0 { o with version := false } errText fs table d canOpen := by
  refine ⟨rfl, rfl, ?_⟩
  intro argv0 o errText fs table d canOpen
  cases o
  rfl

/-- C10: on every successful build, the dead pointer initialisation
`unsigned char* dataPtr = &binary[0];` in `BuildProgram` indexes element 0 of
the still-empty output vector: under the total `Option`-valued embedding the
access yields `none` (`main` passes the freshly constructed empty vector). -/
theorem build_dataPtr_out_of_bounds (table : List (Int × String))
    (sources : List (List Nat)) (d : BuildDriver)
    (h1 : d.platRet = 0) (h2 : d.numPlatforms ≠ 0) (h3 : d.devCountRet = 0)
    (h4 : d.numDevices ≠ 0) (h5 : d.devListRet = 0) (h6 : d.ctxRet = 0)
    (h7 : d.progRet = 0) (h8 : d.buildRet = 0) (h9 : d.numProgDevRet = 0)
    (h10 : d.numProgramDevices ≠ 0) (h11 : d.sizesRet = 0) (h12 : d.binsRet = 0) :
    ∃ r : BuildResult,
      (BuildProgram table sources [] d).2 = .ret r ∧ r.dataPtr = none := by
  refine ⟨⟨none,
    (List.range d.numProgramDevices).map (fun i => d.binaries.getD i []),
    ((List.range d.numProgramDevices).map (fun i => d.binaries.getD i [])).getD 0 []⟩,
    ?_, rfl⟩
  simp [BuildProgram, IfErrorThenExit, h1, h2, h3, h4, h5, h6, h7, h8, h9, h10, h11, h12]

/-- C10 witness: a concrete successful single-binary build; the dead pointer
access lands on the out-of-bounds branch. -/
theorem build_dataPtr_out_of_bounds_witness :
    ∃ r : BuildResult,
      (BuildProgram [] [[7]] [] ⟨0, 1, 0, 1, 0, 0, 0, 0, 0, 1, 0, 0, [[9, 9]]⟩).2 =
        .ret r ∧ r.dataPtr = none :=
  build_dataPtr_out_of_bounds [] [[7]] ⟨0, 1, 0, 1, 0, 0, 0, 0, 0, 1, 0, 0, [[9, 9]]⟩
    rfl (by decide) rfl (by decide) rfl rfl rfl rfl rfl (by decide) rfl rfl
